import Mathlib

set_option maxRecDepth 8000
set_option exponentiation.threshold 1100

/-!
Verification of the agent/tool examples of the Langchain-tutorial repository.

The development shallowly embeds the pure fragments of the four example
scripts, in particular the tool functions of
`examples/04_agent_with_tools.py` (`calculator`, `word_counter`,
`reverse_text`), the environment-variable guard of every example's `main`,
the fallback ReAct prompt template, and — following the repository's design
specification — the ReAct agent loop and action parser that the script
delegates to the LangChain library.

Python specifics and how they are modelled:
* Python integers are arbitrary precision and are modelled as `Int`.
* Python floats are abstracted as exact rationals (`Rat`), with the float
  branches kept distinct from the integer branches.  The operations at
  which CPython raises `OverflowError` — int→float conversion, int/int
  true division whose quotient leaves the double range, and float power —
  are modelled with the double-range overflow test on the exact value;
  `OverflowError` is *not* in the calculator's `except` tuple, so it
  propagates out of `calculator`.  CPython's silent saturation to `inf`
  in float `+ - * /` raises nothing and is a value-level abstraction
  only; the printed repr of a float result is likewise unmodelled, and no
  theorem pins either.
* Exceptions are modelled with `Except`; `calculator` catches exactly the
  exception classes named in its `except` clause.
-/

/-! ## Calculator tool: `calculator` and its inner `safe_eval`
    (examples/04_agent_with_tools.py, lines 38-76) -/

/-- The binary operator of a Python `ast.BinOp` node.  The source's
`operators` dict supports `Add, Sub, Mult, Div, Pow`; the remaining
constructors stand for the Python binary operators absent from the dict
(`%`, `//`, `<<`, `>>`, `|`, `^`, `&`, `@`), whose lookup raises
`KeyError`. -/
inductive BinK where
  | add | sub | mult | div | pow
  | mod | floorDiv | lshift | rshift | bitOr | bitXor | bitAnd | matMult
deriving DecidableEq, Repr

/-- The operator of a Python `ast.UnaryOp` node.  Only `USub` is in the
source's `operators` dict; `UAdd`, `Invert` and `Not` raise `KeyError`. -/
inductive UnK where
  | usub | uadd | invert | notOp
deriving DecidableEq, Repr

/-- A Python runtime value as produced by the calculator: either an `int`
(arbitrary precision, exact) or a `float`.  The float payload is the exact
rational the operation denotes; Python's IEEE-754 rounding is abstracted
away, and no theorem below depends on the printed form of a non-integer
float. -/
inductive PyVal where
  | int (z : Int)
  | float (q : Rat)
deriving DecidableEq, Repr

/-- A Python expression AST as produced by `ast.parse(expression,
mode='eval')`, restricted to the node kinds the claims distinguish:
numeric literals (`ast.Num`), binary and unary operations, and the foreign
constructs `ast.Name`, `ast.Attribute`, `ast.Call`.  `other` stands for
any further expression node kind (string constants, comparisons, lambdas,
…), all of which reach `safe_eval`'s `else` branch exactly as the first
three do. -/
inductive Expr where
  | num (v : PyVal)
  | binOp (op : BinK) (l r : Expr)
  | unaryOp (op : UnK) (e : Expr)
  | name (id : String)
  | attribute (e : Expr) (attr : String)
  | call (f : Expr) (args : List Expr)
  | other (kind : String)
deriving Repr

/-- The exceptions `safe_eval` (and the surrounding parse) can raise.  The
payload of `valueError` / `keyError` abstracts `str(e)`: in CPython the
`ValueError` text embeds the node's `repr` (which contains a memory
address) and the `KeyError` text embeds the operator class; no theorem
below depends on these texts.  `zeroDivision` and `overflowError` carry
the exact CPython messages (`"division by zero"` for `int`s, `"float
division by zero"` / power messages otherwise; the conversion, division
and power overflow messages).  `overflowError` is the one kind absent
from the calculator's `except` tuple. -/
inductive PyErr where
  | syntaxError (msg : String)
  | valueError (msg : String)
  | typeError (msg : String)
  | keyError (msg : String)
  | zeroDivision (msg : String)
  | overflowError (msg : String)
deriving DecidableEq, Repr

/-- The absolute value of a rational. -/
def ratAbs (q : Rat) : Rat := if q < 0 then -q else q

/-- `x ^ e` on integers, computed on the (kernel-accelerated) natural
magnitude with the sign tracked separately; equal to `x ^ e`. -/
def intPowNat (x : Int) (e : Nat) : Int :=
  let m : Nat := x.natAbs ^ e
  if 0 ≤ x ∨ e % 2 = 0 then (m : Int) else -(m : Int)

/-- `q ^ e` for an integer exponent, computed on numerator and
denominator with kernel-accelerated natural powers; `0 ^ e = 0` for
negative `e` (unreachable: every caller excludes a zero base there). -/
def ratPowInt (q : Rat) (e : Int) : Rat :=
  let k := e.natAbs
  let sign : Int := if q.num < 0 ∧ k % 2 = 1 then -1 else 1
  let nmag : Nat := q.num.natAbs ^ k
  let dmag : Nat := q.den ^ k
  if 0 ≤ e then mkRat (sign * (nmag : Int)) dmag
  else if q.num = 0 then 0
  else mkRat (sign * (dmag : Int)) nmag

/-- The round-to-infinity boundary of the IEEE-754 double range:
`2^1024 − 2^970`, the midpoint above `DBL_MAX = 2^1024 − 2^971`; a real
value of magnitude at least this rounds to infinity. -/
def doubleRoundMax : Rat := mkRat ((2 ^ 1024 - 2 ^ 970 : Nat) : Int) 1

/-- Whether a real value, given exactly, lies beyond the IEEE-754 double
range, i.e. rounds to infinity.  CPython raises `OverflowError` at the
operations that perform this check: int→float conversion, int/int true
division, and float power. -/
def overflowsDouble (q : Rat) : Bool :=
  !(Rat.blt (ratAbs q) doubleRoundMax)

/-- Conversion of a Python number to a C double, as performed by the
float-promoting arithmetic paths: an `int` too large for the double range
raises `OverflowError("int too large to convert to float")`; otherwise
the value is kept exactly (the rounding of an in-range conversion is a
value-level abstraction no theorem depends on). -/
def toDouble : PyVal → Except PyErr Rat
  | .int z =>
      if overflowsDouble (z : Rat) then
        .error (.overflowError "int too large to convert to float")
      else .ok (z : Rat)
  | .float q => .ok q

/-- `operator.add` / `operator.sub` / `operator.mul` on Python numbers:
int⊗int stays int (arbitrary precision, exact); with a float operand the
int side is converted to double (possible `OverflowError`) and the float
operation performed.  CPython's float arithmetic saturates silently to
`inf` instead of raising; the exact rational result stands in for the
rounded double. -/
def addVal (a b : PyVal) : Except PyErr PyVal :=
  match a, b with
  | .int x, .int y => .ok (.int (x + y))
  | _, _ =>
      match toDouble a, toDouble b with
      | .error e, _ => .error e
      | _, .error e => .error e
      | .ok qa, .ok qb => .ok (.float (qa + qb))

def subVal (a b : PyVal) : Except PyErr PyVal :=
  match a, b with
  | .int x, .int y => .ok (.int (x - y))
  | _, _ =>
      match toDouble a, toDouble b with
      | .error e, _ => .error e
      | _, .error e => .error e
      | .ok qa, .ok qb => .ok (.float (qa - qb))

def mulVal (a b : PyVal) : Except PyErr PyVal :=
  match a, b with
  | .int x, .int y => .ok (.int (x * y))
  | _, _ =>
      match toDouble a, toDouble b with
      | .error e, _ => .error e
      | _, .error e => .error e
      | .ok qa, .ok qb => .ok (.float (qa * qb))

/-- `operator.truediv`: always a float.  int/int raises
`ZeroDivisionError("division by zero")` on a zero divisor and
`OverflowError("integer division result too large for a float")` when the
exact quotient leaves the double range (CPython's `long_true_divide`
computes it exactly before converting); a float operand first converts
the int side to double (possible `OverflowError`) and raises
`ZeroDivisionError("float division by zero")` on a zero divisor —
float-division overflow saturates silently to `inf`. -/
def divVal (a b : PyVal) : Except PyErr PyVal :=
  match a, b with
  | .int x, .int y =>
      if y = 0 then .error (.zeroDivision "division by zero")
      else
        let q := (x : Rat) / (y : Rat)
        if overflowsDouble q then
          .error (.overflowError "integer division result too large for a float")
        else .ok (.float q)
  | _, _ =>
      match toDouble a, toDouble b with
      | .error e, _ => .error e
      | _, .error e => .error e
      | .ok qa, .ok qb =>
          if qb = 0 then .error (.zeroDivision "float division by zero")
          else .ok (.float (qa / qb))

/-- `operator.pow` on Python numbers.  int ** nonnegative int is an exact
int (never raises); int ** negative int converts the base to double
(possible `OverflowError`), with `ZeroDivisionError` on base 0, and the
result magnitude is at most 1, so it cannot overflow; a float operand
with an integer exponent goes through C `pow`, which raises
`OverflowError("(34, 'Numerical result out of range')")` when the result
leaves the double range and `ZeroDivisionError` on base 0 with a negative
exponent.  A non-integral exponent makes CPython compute an inexact (or
complex) float power outside the exact model; that branch is flagged as a
`typeError` and no theorem below depends on it. -/
def powVal (a b : PyVal) : Except PyErr PyVal :=
  match a, b with
  | .int x, .int y =>
      if 0 ≤ y then .ok (.int (intPowNat x y.toNat))
      else if x = 0 then .error (.zeroDivision "0.0 cannot be raised to a negative power")
      else
        match toDouble (.int x) with
        | .error e => .error e
        | .ok qa => .ok (.float (ratPowInt qa y))
  | _, _ =>
      match toDouble a, toDouble b with
      | .error e, _ => .error e
      | _, .error e => .error e
      | .ok qa, .ok qb =>
          if qb.den = 1 then
            if qb.num < 0 ∧ qa = 0 then
              .error (.zeroDivision "0.0 cannot be raised to a negative power")
            else
              let r := ratPowInt qa qb.num
              if overflowsDouble r then
                .error (.overflowError "(34, 'Numerical result out of range')")
              else .ok (.float r)
          else .error (.typeError "non-integral exponent outside the exact model")

/-- `operators[type(node.op)](left, right)` for a `BinOp`: dispatch through
the source's `operators` dict; an operator class missing from the dict
raises `KeyError`. -/
def applyBin (op : BinK) (a b : PyVal) : Except PyErr PyVal :=
  match op with
  | .add => addVal a b
  | .sub => subVal a b
  | .mult => mulVal a b
  | .div => divVal a b
  | .pow => powVal a b
  | k => .error (.keyError (reprStr k))

/-- `operators[type(node.op)](operand)` for a `UnaryOp`: only `USub` is
present in the dict. -/
def applyUn (op : UnK) (a : PyVal) : Except PyErr PyVal :=
  match op with
  | .usub => .ok (match a with | .int z => .int (-z) | .float q => .float (-q))
  | k => .error (.keyError (reprStr k))

/-- `safe_eval` (lines 56-68): numbers evaluate to themselves; a `BinOp`
evaluates its left child, then its right child, then dispatches through
the `operators` dict; a `UnaryOp` evaluates its operand and dispatches;
every other node kind raises `ValueError("Unsupported operation: …")`
without visiting its children. -/
def safe_eval : Expr → Except PyErr PyVal
  | .num v => .ok v
  | .binOp op l r =>
      match safe_eval l with
      | .error e => .error e
      | .ok left =>
        match safe_eval r with
        | .error e => .error e
        | .ok right => applyBin op left right
  | .unaryOp op e =>
      match safe_eval e with
      | .error err => .error err
      | .ok operand => applyUn op operand
  | .name id => .error (.valueError ("Unsupported operation: Name " ++ id))
  | .attribute _ attr => .error (.valueError ("Unsupported operation: Attribute " ++ attr))
  | .call _ _ => .error (.valueError "Unsupported operation: Call")
  | .other kind => .error (.valueError ("Unsupported operation: " ++ kind))

/-- `str(result)` as interpolated by the f-string on line 74.  A Python
`int` prints as its exact decimal digits, always.  A `float` prints as
the shortest decimal repr of the nearest IEEE-754 double — a function of
the rounded bits that an exact-arithmetic model cannot reproduce (e.g.
`1/3` prints `0.3333333333333333`, `1e17` prints `1e+17`); the float
branch is therefore an explicitly marked placeholder, and no theorem
below pins the printed text of a float result. -/
def fmtVal : PyVal → String
  | .int z => toString z
  | .float q => "unmodelled double repr of " ++ toString q

/-- `str(e)` for the caught exception, as interpolated on line 76. -/
def errMsg : PyErr → String
  | .syntaxError m => m
  | .valueError m => m
  | .typeError m => m
  | .keyError m => m
  | .zeroDivision m => m
  | .overflowError m => m

/-- The `except` tuple on line 75: `(SyntaxError, ValueError, TypeError,
KeyError, ZeroDivisionError)`.  `OverflowError` is not in the tuple and
is not caught. -/
def caughtBy : PyErr → Bool
  | .syntaxError _ => true
  | .valueError _ => true
  | .typeError _ => true
  | .keyError _ => true
  | .zeroDivision _ => true
  | .overflowError _ => false

/-- The error string built on line 76. -/
def calcErrString (expression : String) (e : PyErr) : String :=
  "Error calculating " ++ "'" ++ expression ++ "': " ++ errMsg e ++
    ". Only basic arithmetic operations (+, -, *, /, **) are supported."

/-- `calculator` (lines 38-76).  `ast.parse(expression, mode='eval')` is
Python-stdlib code external to the repository, so the parse result is
passed in alongside the expression string: `Except.error m` stands for a
`SyntaxError` with message `m`, `Except.ok tree` for a successful parse.
The body mirrors the `try`/`except`: evaluate via `safe_eval` and format
the success string, or catch any exception from the `except` tuple and
format the error string; an uncaught exception would propagate
(`Except.error`). -/
def calculator (expression : String) (tree : Except String Expr) : Except PyErr String :=
  match tree with
  | .error m => .ok (calcErrString expression (.syntaxError m))
  | .ok ast =>
      match safe_eval ast with
      | .ok result => .ok ("The result of " ++ expression ++ " is " ++ fmtVal result)
      | .error e => if caughtBy e then .ok (calcErrString expression e) else .error e

/-- A binary operator class absent from the source's `operators` dict. -/
def foreignBinK : BinK → Bool
  | .add | .sub | .mult | .div | .pow => false
  | _ => true

/-- A unary operator class absent from the source's `operators` dict. -/
def foreignUnK : UnK → Bool
  | .usub => false
  | _ => true

/-- A foreign construct in the sense of the calculator's safety claim: a
node other than a numeric literal, a supported binary operation or a
supported unary operation, anywhere in the tree. -/
def containsForeign : Expr → Bool
  | .num _ => false
  | .binOp op l r => foreignBinK op || containsForeign l || containsForeign r
  | .unaryOp op e => foreignUnK op || containsForeign e
  | .name _ => true
  | .attribute _ _ => true
  | .call _ _ => true
  | .other _ => true

/-- Dispatching a binary operator class that is missing from the
`operators` dict raises (`KeyError`) whatever the operand values are. -/
theorem applyBin_foreign (op : BinK) (hop : foreignBinK op = true) (a b : PyVal) :
    ∃ e, applyBin op a b = Except.error e := by
  cases op <;> simp [foreignBinK] at hop <;> exact ⟨_, rfl⟩

/-- Dispatching a unary operator class that is missing from the
`operators` dict raises (`KeyError`). -/
theorem applyUn_foreign (op : UnK) (hop : foreignUnK op = true) (a : PyVal) :
    ∃ e, applyUn op a = Except.error e := by
  cases op <;> simp [foreignUnK] at hop <;> exact ⟨_, rfl⟩

/-- If the tree contains any foreign construct, `safe_eval` raises: the
evaluation either reaches the foreign node (raising `ValueError` or
`KeyError` there) or raises on the way to it. -/
theorem foreign_eval_error : ∀ a : Expr, containsForeign a = true →
    ∃ e, safe_eval a = Except.error e
  | .num _, h => by simp [containsForeign] at h
  | .binOp op l r, h => by
      rcases hl : safe_eval l with e | v
      · exact ⟨e, by rw [safe_eval, hl]⟩
      · rcases hr : safe_eval r with e | w
        · exact ⟨e, by rw [safe_eval, hl, hr]⟩
        · have hop : foreignBinK op = true := by
            simp only [containsForeign, Bool.or_eq_true] at h
            rcases h with (h | h) | h
            · exact h
            · obtain ⟨e, he⟩ := foreign_eval_error l h
              rw [he] at hl; cases hl
            · obtain ⟨e, he⟩ := foreign_eval_error r h
              rw [he] at hr; cases hr
          obtain ⟨e, he⟩ := applyBin_foreign op hop v w
          exact ⟨e, by rw [safe_eval, hl, hr]; exact he⟩
  | .unaryOp op a, h => by
      rcases ha : safe_eval a with e | v
      · exact ⟨e, by rw [safe_eval, ha]⟩
      · have hop : foreignUnK op = true := by
          simp only [containsForeign, Bool.or_eq_true] at h
          rcases h with h | h
          · exact h
          · obtain ⟨e, he⟩ := foreign_eval_error a h
            rw [he] at ha; cases ha
        obtain ⟨e, he⟩ := applyUn_foreign op hop v
        exact ⟨e, by rw [safe_eval, ha]; exact he⟩
  | .name _, _ => ⟨_, rfl⟩
  | .attribute _ _, _ => ⟨_, rfl⟩
  | .call _ _, _ => ⟨_, rfl⟩
  | .other _, _ => ⟨_, rfl⟩

/-- The AST of the expression string "2.0**1024 + x": the power of the
float literal 2.0 and the int literal 1024, added to the name `x`. -/
def overflowPlusNameAst : Expr :=
  .binOp .add (.binOp .pow (.num (.float 2)) (.num (.int 1024))) (.name "x")

/-- Claim C1 counterexample: the parsed AST of "2.0**1024 + x" contains a
foreign construct (the name `x`), yet `calculator` does not return an
"Error calculating …" string for it: evaluating the left subtree first,
`operator.pow(2.0, 1024)` raises `OverflowError`, which is not in the
`except` tuple, so the exception propagates out of `calculator`. -/
theorem calculator_overflow_raises :
    containsForeign overflowPlusNameAst = true ∧
    calculator "2.0**1024 + x" (Except.ok overflowPlusNameAst) =
      Except.error (PyErr.overflowError "(34, 'Numerical result out of range')") :=
  ⟨rfl, rfl⟩

/-- Claim C1 (amended): for every input string whose parsed AST contains
a construct other than numeric literals, the supported binary operators
and unary minus (a name, an attribute access, a function call, or an
unsupported operator), `calculator` never evaluates that construct and
never returns a success string: it returns an error string beginning
with "Error calculating" when the exception raised on the way is in the
`except` tuple, and otherwise propagates the uncaught exception (an
`OverflowError` from an earlier arithmetic overflow). -/
theorem calculator_foreign_safe (expression : String) (ast : Expr)
    (h : containsForeign ast = true) :
    (∃ rest, calculator expression (Except.ok ast) =
        Except.ok ("Error calculating " ++ rest)) ∨
    ∃ exc, calculator expression (Except.ok ast) = Except.error exc := by
  obtain ⟨e, he⟩ := foreign_eval_error ast h
  by_cases hc : caughtBy e
  · refine Or.inl ⟨"'" ++ expression ++ "': " ++ errMsg e ++
      ". Only basic arithmetic operations (+, -, *, /, **) are supported.", ?_⟩
    simp only [calculator, he, hc, if_true]
    rfl
  · refine Or.inr ⟨e, ?_⟩
    simp [calculator, he, hc]

/-- Witness for C1 at the concrete input "x", whose AST is the name node
`x`. -/
theorem calculator_foreign_safe_witness :
    containsForeign (Expr.name "x") = true ∧
    ((∃ rest, calculator "x" (Except.ok (Expr.name "x")) =
        Except.ok ("Error calculating " ++ rest)) ∨
      ∃ exc, calculator "x" (Except.ok (Expr.name "x")) = Except.error exc) :=
  ⟨rfl, calculator_foreign_safe "x" (Expr.name "x") rfl⟩

/-- The AST of the expression string "1/0": `ast.parse("1/0",
mode='eval')` yields a true division of the literals 1 and 0. -/
def oneDivZeroAst : Expr := .binOp .div (.num (.int 1)) (.num (.int 0))

/-- Claim C3 counterexample: invoking the Calculator tool on the input
string "1/0" does not raise — `calculator` returns normally. -/
theorem calculator_one_div_zero_returns :
    (calculator "1/0" (Except.ok oneDivZeroAst)).isOk = true := rfl

/-- Claim C3 (amended): for the input "1/0" the calculator catches the
`ZeroDivisionError` internally and returns, as its ordinary string
result, the error text — which the agent loop then records as the
Observation while continuing. -/
theorem calculator_one_div_zero_error_string :
    calculator "1/0" (Except.ok oneDivZeroAst) =
      Except.ok "Error calculating '1/0': division by zero. Only basic arithmetic operations (+, -, *, /, **) are supported." := rfl

/-! ## Word-count tool: `word_counter`
    (examples/04_agent_with_tools.py, lines 78-83) -/

/-- A character Python's `str.split()` (no separator argument) splits on:
the ASCII whitespace characters.  (CPython also splits on the further
Unicode whitespace code points; the examples and claims only involve
ASCII text, and the token-counting theorem below is parametric in this
character class.) -/
def isPySpace (c : Char) : Bool :=
  c == ' ' || c == '\t' || c == '\n' || c == '\r' || c == '\x0b' || c == '\x0c'

/-- Worker for Python's `str.split()`: walk the characters keeping the
(reversed) current token in `acc`; whitespace closes the current token,
and leading/trailing/repeated whitespace produces no empty tokens. -/
def pySplitAux : List Char → List Char → List (List Char)
  | [], acc => if acc.isEmpty then [] else [acc.reverse]
  | c :: cs, acc =>
      if isPySpace c then
        if acc.isEmpty then pySplitAux cs [] else acc.reverse :: pySplitAux cs []
      else pySplitAux cs (c :: acc)

/-- Python's `text.split()`: the list of maximal runs of non-whitespace
characters. -/
def pySplit (l : List Char) : List (List Char) := pySplitAux l []

/-- `word_counter` (lines 78-83): `len(text.split())` interpolated into
the f-string. -/
def word_counter (text : String) : String :=
  "The text contains " ++ toString (pySplit text.data).length ++ " words"

/-- Independent count of the maximal whitespace-separated tokens of a
character list: scan left to right, counting each position where a
non-whitespace character is not preceded by a non-whitespace character
(the flag records being inside a token). -/
def wordCountAux : List Char → Bool → Nat
  | [], _ => 0
  | c :: cs, inTok =>
      if isPySpace c then wordCountAux cs false
      else (if inTok then 0 else 1) + wordCountAux cs true

/-- The number of maximal whitespace-separated tokens of a string. -/
def wordCount (text : String) : Nat := wordCountAux text.data false

/-- The split worker produces exactly the pending token (when non-empty)
plus one token per token boundary seen by the counting scan. -/
theorem pySplitAux_length : ∀ (l : List Char) (acc : List Char),
    (pySplitAux l acc).length = (if acc.isEmpty then 0 else 1) + wordCountAux l (!acc.isEmpty)
  | [], acc => by
      by_cases h : acc.isEmpty <;> simp [pySplitAux, wordCountAux, h]
  | c :: cs, acc => by
      by_cases hsp : isPySpace c
      · by_cases h : acc.isEmpty <;>
          simp [pySplitAux, wordCountAux, hsp, h, pySplitAux_length cs []] <;> omega
      · have := pySplitAux_length cs (c :: acc)
        by_cases h : acc.isEmpty <;>
          simp [pySplitAux, wordCountAux, hsp, h, this]

/-- Claim C8: for every input string, `word_counter` returns exactly
"The text contains N words" where N is the number of maximal
whitespace-separated tokens of the input; in particular the empty string
and all-whitespace strings give "The text contains 0 words". -/
theorem word_counter_counts_tokens (text : String) :
    word_counter text = "The text contains " ++ toString (wordCount text) ++ " words" := by
  have h := pySplitAux_length text.data []
  simp only [pySplit, word_counter, wordCount]
  rw [h]
  simp

/-! ## Text-reversal tool: `reverse_text`
    (examples/04_agent_with_tools.py, lines 85-89) -/

/-- Python's `text[::-1]`: the string of the reversed character
sequence. -/
def pyReverse (text : String) : String := String.mk text.data.reverse

/-- `reverse_text` (lines 85-89): the fixed prefix followed by the
reversed input. -/
def reverse_text (text : String) : String := "Reversed text: " ++ pyReverse text

/-- Claim C9: `reverse_text` prepends the fixed prefix "Reversed text: "
to the reversal of its input; the reversal is a length-preserving
involution, so reversing the suffix again restores the input. -/
theorem reverse_text_involutive (text : String) :
    reverse_text text = "Reversed text: " ++ pyReverse text ∧
    pyReverse (pyReverse text) = text ∧
    (pyReverse text).length = text.length := by
  refine ⟨rfl, ?_, ?_⟩
  · cases text with
    | mk data => simp [pyReverse]
  · cases text with
    | mk data => simp [pyReverse, String.length]

/-! ## The OPENAI_API_KEY guard in each example's `main`
    (01_simple_llm_chain.py lines 31-34, 02_chat_with_memory.py lines
    32-35, 03_rag_example.py lines 93-96, 04_agent_with_tools.py lines
    100-103) -/

/-- The observable effects of an example's `main`, in program order.
`print` carries the printed line; `constructModelClient` marks the
construction of the OpenAI client (`OpenAI(...)` / `ChatOpenAI(...)` /
`OpenAIEmbeddings(...)`); `modelCall` marks the first network call to the
hosted model; `externalWork` abstracts the remaining library calls and
console output of the happy path, which the guard claims do not
depend on. -/
inductive Effect where
  | print (s : String)
  | constructModelClient
  | modelCall
  | externalWork
deriving DecidableEq, Repr

/-- Python truthiness of `not os.getenv("OPENAI_API_KEY")`: true when the
variable is unset (`None`) or set to the empty string. -/
def keyMissing : Option String → Bool
  | none => true
  | some s => s.data.isEmpty

/-- `"=" * 50`. -/
def eqLine : String := String.mk (List.replicate 50 '=')

/-- The two error lines printed by every example when the key is
missing. -/
def apiKeyErrorEffects : List Effect :=
  [.print "Error: OPENAI_API_KEY not found in environment variables.",
   .print "Please create a .env file with your OpenAI API key."]

/-- `main` of `01_simple_llm_chain.py`, as its effect trace, parametrised
by the value of `OPENAI_API_KEY` (after `load_dotenv()`).  The happy path
past the client construction is abstracted as `externalWork` around the
model calls. -/
def main_01 (apiKey : Option String) : List Effect :=
  [.print eqLine, .print "Example 1: Simple LLM Chain", .print eqLine] ++
  (if keyMissing apiKey then apiKeyErrorEffects
   else [.constructModelClient, .externalWork, .modelCall, .externalWork])

/-- `main` of `02_chat_with_memory.py`, as its effect trace. -/
def main_02 (apiKey : Option String) : List Effect :=
  [.print eqLine, .print "Example 2: Chat Model with Memory", .print eqLine] ++
  (if keyMissing apiKey then apiKeyErrorEffects
   else [.constructModelClient, .externalWork, .modelCall, .externalWork])

/-- `main` of `03_rag_example.py`, as its effect trace. -/
def main_03 (apiKey : Option String) : List Effect :=
  [.print eqLine, .print "Example 3: Retrieval Augmented Generation (RAG)", .print eqLine] ++
  (if keyMissing apiKey then apiKeyErrorEffects
   else [.externalWork, .constructModelClient, .externalWork, .modelCall, .externalWork])

/-- `main` of `04_agent_with_tools.py`, as its effect trace.  On the
happy path the tools are created and printed before the `ChatOpenAI`
client is constructed. -/
def main_04 (apiKey : Option String) : List Effect :=
  [.print eqLine, .print "Example 4: Agent with Tools", .print eqLine] ++
  (if keyMissing apiKey then apiKeyErrorEffects
   else [.externalWork, .constructModelClient, .externalWork, .modelCall, .externalWork])

/-- Claim C10: with `OPENAI_API_KEY` unset, every example's `main` prints
its banner and the two error lines and returns: its trace contains no
model-client construction and no model call. -/
theorem main_guard_blocks_model_calls :
    (main_01 none = [.print eqLine, .print "Example 1: Simple LLM Chain", .print eqLine] ++
        apiKeyErrorEffects ∧
      Effect.constructModelClient ∉ main_01 none ∧ Effect.modelCall ∉ main_01 none) ∧
    (main_02 none = [.print eqLine, .print "Example 2: Chat Model with Memory", .print eqLine] ++
        apiKeyErrorEffects ∧
      Effect.constructModelClient ∉ main_02 none ∧ Effect.modelCall ∉ main_02 none) ∧
    (main_03 none = [.print eqLine, .print "Example 3: Retrieval Augmented Generation (RAG)",
        .print eqLine] ++ apiKeyErrorEffects ∧
      Effect.constructModelClient ∉ main_03 none ∧ Effect.modelCall ∉ main_03 none) ∧
    (main_04 none = [.print eqLine, .print "Example 4: Agent with Tools", .print eqLine] ++
        apiKeyErrorEffects ∧
      Effect.constructModelClient ∉ main_04 none ∧ Effect.modelCall ∉ main_04 none) := by
  decide

/-! ## The fallback ReAct prompt template
    (examples/04_agent_with_tools.py, lines 141-166) -/

/-- The fallback prompt `template` (lines 146-164), used when
`hub.pull("hwchase17/react")` fails. -/
def template : String :=
  "Answer the following questions as best you can. You have access to the following tools:\n\n{tools}\n\nUse the following format:\n\nQuestion: the input question you must answer\nThought: you should always think about what to do\nAction: the action to take, should be one of [{tool_names}]\nAction Input: the input to the action\nObservation: the result of the action\n... (this Thought/Action/Action Input/Observation can repeat N times)\nThought: I now know the final answer\nFinal Answer: the final answer to the original input question\n\nBegin!\n\nQuestion: {input}\nThought:{agent_scratchpad}"

/-- Split a character list at newlines (Python/parser line structure). -/
def splitLinesAux : List Char → List Char → List (List Char)
  | [], acc => [acc.reverse]
  | c :: cs, acc =>
      if c = '\n' then acc.reverse :: splitLinesAux cs []
      else splitLinesAux cs (c :: acc)

/-- The lines of a string. -/
def linesOf (s : String) : List (List Char) := splitLinesAux s.data []

/-- Whether some line of `s` begins with the literal `marker`. -/
def hasMarkedLine (s marker : String) : Bool :=
  (linesOf s).any (fun l => marker.data.isPrefixOf l)

/-- Claim C6: the fallback template conforms to the Action/Action
Input/Final Answer convention: it contains lines beginning with the
literal markers "Action:", "Action Input:", "Observation:" and
"Final Answer:". -/
theorem template_has_react_markers :
    hasMarkedLine template "Action:" = true ∧
    hasMarkedLine template "Action Input:" = true ∧
    hasMarkedLine template "Observation:" = true ∧
    hasMarkedLine template "Final Answer:" = true := by
  decide

/-! ## Action Parser and Agent Loop

The script delegates the ReAct loop to LangChain's `create_react_agent` /
`AgentExecutor`, whose code is not part of this repository; the
repository's specification (§4.3, §4.4) defines the parser and the loop
that the script configures on lines 169-178.  They are modelled here from
the spec. -/

/-- Modelled from the spec: the Action Parser's `Decision` (§4.3 / §3),
for the LangChain ReAct output parser that is not part of the
repository. -/
inductive Decision where
  | invoke (toolName toolInput : String)
  | final (answer : String)
  | malformed (raw : String)
deriving DecidableEq, Repr

/-- Trim surrounding whitespace from a character list (the spec's
"trimmed"). -/
def trimChars (l : List Char) : List Char :=
  ((l.dropWhile isPySpace).reverse.dropWhile isPySpace).reverse

/-- Trim surrounding whitespace from a string. -/
def trimStr (s : String) : String := String.mk (trimChars s.data)

/-- Join lines back into one character list with newlines. -/
def joinLines : List (List Char) → List Char
  | [] => []
  | [l] => l
  | l :: ls => l ++ '\n' :: joinLines ls

/-- Find the first line beginning with `marker`; return the rest of that
line after the marker together with the following lines. -/
def findMarked (marker : List Char) : List (List Char) → Option (List Char × List (List Char))
  | [] => none
  | l :: ls =>
      if marker.isPrefixOf l then some (l.drop marker.length, ls)
      else findMarked marker ls

/-- Keep the lines up to (excluding) the first line beginning with
"Observation:" — the spec's truncation of the tool input. -/
def upToObservation : List (List Char) → List (List Char)
  | [] => []
  | l :: ls =>
      if ("Observation:".data).isPrefixOf l then []
      else l :: upToObservation ls

/-- Modelled from the spec: the Action Parser's `parse` (§4.3), for the
LangChain ReAct output parser that is not part of the repository.
(1) a line beginning with "Final Answer:" wins and yields `final` with
the trimmed text after the marker; (2) otherwise a line beginning with
"Action:" followed later by a line beginning with "Action Input:" yields
`invoke`, the input truncated at the next "Observation:" line; (3)
otherwise `malformed`. -/
def parse (raw : String) : Decision :=
  let ls := linesOf raw
  match findMarked ("Final Answer:".data) ls with
  | some (rest, following) =>
      .final (trimStr (String.mk (joinLines (rest :: following))))
  | none =>
      match findMarked ("Action:".data) ls with
      | some (nameRest, afterAction) =>
          match findMarked ("Action Input:".data) afterAction with
          | some (inputRest, afterInput) =>
              .invoke (trimStr (String.mk nameRest))
                (trimStr (String.mk (joinLines (inputRest :: upToObservation afterInput))))
          | none => .malformed raw
      | none => .malformed raw

/-- A line beginning with the marker exists iff `findMarked` finds one. -/
theorem findMarked_isSome_of_any (marker : List Char) :
    ∀ ls : List (List Char), (ls.any fun l => marker.isPrefixOf l) = true →
      (findMarked marker ls).isSome = true
  | [], h => by simp at h
  | l :: ls, h => by
      by_cases hp : marker.isPrefixOf l
      · simp [findMarked, hp]
      · simp only [List.any_cons, Bool.or_eq_true] at h
        rcases h with h | h
        · exact absurd h hp
        · simp [findMarked, hp, findMarked_isSome_of_any marker ls h]

/-- Claim C7 (spec-modelled): the parser gives priority to the final
answer: whenever the raw continuation contains both a line beginning
with "Final Answer:" and a line beginning with "Action:", `parse`
returns `final` with the trimmed text after the "Final Answer:" marker —
never `invoke`. -/
theorem parse_final_answer_priority (raw : String)
    (hf : hasMarkedLine raw "Final Answer:" = true)
    (ha : hasMarkedLine raw "Action:" = true) :
    ∃ rest following,
      findMarked ("Final Answer:".data) (linesOf raw) = some (rest, following) ∧
      parse raw = Decision.final (trimStr (String.mk (joinLines (rest :: following)))) := by
  have hs := findMarked_isSome_of_any ("Final Answer:".data) (linesOf raw) hf
  rcases hm : findMarked ("Final Answer:".data) (linesOf raw) with _ | ⟨rest, following⟩
  · rw [hm] at hs; simp at hs
  · exact ⟨rest, following, rfl, by simp [parse, hm]⟩

/-- Witness for C7 at a continuation holding both markers: the model
text "Action: Calculator\nAction Input: 2 + 2\nFinal Answer: 4" parses
to the final answer "4". -/
theorem parse_final_answer_priority_witness :
    hasMarkedLine "Action: Calculator\nAction Input: 2 + 2\nFinal Answer: 4" "Final Answer:" = true ∧
    ∃ rest following,
      findMarked ("Final Answer:".data)
        (linesOf "Action: Calculator\nAction Input: 2 + 2\nFinal Answer: 4") =
        some (rest, following) ∧
      parse "Action: Calculator\nAction Input: 2 + 2\nFinal Answer: 4" =
        Decision.final (trimStr (String.mk (joinLines (rest :: following)))) :=
  ⟨rfl, parse_final_answer_priority
    "Action: Calculator\nAction Input: 2 + 2\nFinal Answer: 4" rfl rfl⟩

/-- Modelled from the spec: a `Step` of the transcript (§3), for the
LangChain agent loop that is not part of the repository. -/
inductive StepKind where
  | thought
  | actionStep
  | observation
deriving DecidableEq, Repr

/-- One transcript entry. -/
structure Step where
  kind : StepKind
  text : String
deriving DecidableEq, Repr

/-- The transcript: the ordered, append-only record of one run. -/
abbrev Transcript := List Step

/-- Modelled from the spec: a registered `Tool` (§3, §6); `invoke` may
fail with a `ToolError` message. -/
structure Tool where
  name : String
  description : String
  invoke : String → Except String String

/-- `lookup` in the Tool Registry (§4.1): first tool with the given
name. -/
def lookupTool (reg : List Tool) (toolName : String) : Option Tool :=
  reg.find? (fun t => t.name == toolName)

/-- Modelled from the spec: the Transcript Builder's `render` (§4.2): the
tool catalogue, the question and the serialized transcript, fed to the
Completion Client. -/
def renderStep (s : Step) : String :=
  (match s.kind with
    | .thought => "Thought: "
    | .actionStep => "Action: "
    | .observation => "Observation: ") ++ s.text

def render (reg : List Tool) (question : String) (tr : Transcript) : String :=
  String.intercalate "\n"
    ((reg.map fun t => t.name ++ ": " ++ t.description) ++
      ("Question: " ++ question) :: tr.map renderStep)

/-- Modelled from the spec: the configuration of the agent loop (§4.4). -/
structure LoopConfig where
  maxIterations : Nat
  allowParsingErrorRecovery : Bool
deriving DecidableEq, Repr

/-- Modelled from the spec: the loop's fatal termination reasons (§3,
§7). -/
inductive FailReason where
  | iterationLimitExceeded
  | unparsableOutput
deriving DecidableEq, Repr

/-- Modelled from the spec: the loop's state machine states (§4.4).  The
terminal states additionally record how many Completion Client calls the
run made, so the call bound is a statement about the state. -/
inductive LoopState where
  | running (iterationCount : Nat) (transcript : Transcript)
  | done (answer : String) (transcript : Transcript) (calls : Nat)
  | failed (reason : FailReason) (transcript : Transcript) (calls : Nat)

/-- Whether a state is terminal. -/
def isTerminal : LoopState → Bool
  | .running _ _ => false
  | .done _ _ _ => true
  | .failed _ _ _ => true

/-- The number of Completion Client calls made so far (one per iteration
that passes the bound check). -/
def callCount : LoopState → Nat
  | .running n _ => n
  | .done _ _ c => c
  | .failed _ _ c => c

/-- The recovery observation fed back on malformed output (§4.4, case
Malformed with recovery enabled). -/
def recoveryMessage : String :=
  "Invalid output: follow the Action/Action Input/Final Answer format."

/-- Modelled from the spec: one transition of the agent loop (§4.4),
for the LangChain `AgentExecutor` loop that is not part of the
repository.  1) at the iteration limit, fail with
`iterationLimitExceeded` without calling the model; 2) otherwise render
the prompt and obtain the continuation from the Completion Client
(modelled as a total function — its transport failures are outside this
core); 3) act on the parsed decision: a final answer terminates the run,
a tool invocation appends an Observation (the tool's output, or the
error text when the tool is unknown or fails) and continues, malformed
output either feeds back a recovery Observation or fails the run,
depending on the configuration. -/
def stepLoop (cfg : LoopConfig) (reg : List Tool) (complete : String → String)
    (question : String) : LoopState → LoopState
  | .running n tr =>
      if cfg.maxIterations ≤ n then .failed .iterationLimitExceeded tr n
      else
        let raw := complete (render reg question tr)
        match parse raw with
        | .final a => .done a (tr ++ [⟨.thought, raw⟩]) (n + 1)
        | .invoke toolName toolInput =>
            match lookupTool reg toolName with
            | none =>
                .running (n + 1)
                  (tr ++ [⟨.observation, "Error: unknown tool " ++ "'" ++ toolName ++ "'"⟩])
            | some t =>
                match t.invoke toolInput with
                | .ok s => .running (n + 1) (tr ++ [⟨.observation, s⟩])
                | .error m => .running (n + 1) (tr ++ [⟨.observation, m⟩])
        | .malformed _ =>
            if cfg.allowParsingErrorRecovery then
              .running (n + 1) (tr ++ [⟨.observation, recoveryMessage⟩])
            else .failed .unparsableOutput tr (n + 1)
  | s => s

/-- Iterate the loop for at most `fuel` transitions, stopping at a
terminal state.  `run` supplies enough fuel that the result is provably
terminal (`agent_run_bounded`), so the fuel is only a totality device. -/
def loopIter (cfg : LoopConfig) (reg : List Tool) (complete : String → String)
    (question : String) : Nat → LoopState → LoopState
  | 0, s => s
  | fuel + 1, s =>
      if isTerminal s then s
      else loopIter cfg reg complete question fuel (stepLoop cfg reg complete question s)

/-- Modelled from the spec: the run entry point (§6): start
`Running(0, empty transcript)` and iterate to a terminal state. -/
def run (cfg : LoopConfig) (reg : List Tool) (complete : String → String)
    (question : String) : LoopState :=
  loopIter cfg reg complete question (cfg.maxIterations + 1) (.running 0 [])

/-- A terminal state is a fixed point of the iteration. -/
theorem loopIter_terminal (cfg : LoopConfig) (reg : List Tool) (complete : String → String)
    (question : String) : ∀ (fuel : Nat) (s : LoopState), isTerminal s = true →
    loopIter cfg reg complete question fuel s = s
  | 0, _, _ => rfl
  | _ + 1, s, h => by simp [loopIter, h]

/-- Below the iteration limit, one transition either terminates the run
having made exactly `n + 1` model calls, or continues with the count
incremented. -/
theorem stepLoop_shape (cfg : LoopConfig) (reg : List Tool) (complete : String → String)
    (question : String) (n : Nat) (tr : Transcript) (h : n < cfg.maxIterations) :
    (isTerminal (stepLoop cfg reg complete question (.running n tr)) = true ∧
      callCount (stepLoop cfg reg complete question (.running n tr)) = n + 1) ∨
    ∃ tr', stepLoop cfg reg complete question (.running n tr) = .running (n + 1) tr' := by
  have hn : ¬ cfg.maxIterations ≤ n := Nat.not_le.mpr h
  rcases hp : parse (complete (render reg question tr)) with ⟨toolName, toolInput⟩ | a | raw
  · rcases hl : lookupTool reg toolName with _ | t
    · refine Or.inr ⟨tr ++ [⟨.observation, "Error: unknown tool " ++ "'" ++ toolName ++ "'"⟩], ?_⟩
      simp [stepLoop, hn, hp, hl]
    · rcases hi : t.invoke toolInput with m | s
      · refine Or.inr ⟨tr ++ [⟨.observation, m⟩], ?_⟩
        simp [stepLoop, hn, hp, hl, hi]
      · refine Or.inr ⟨tr ++ [⟨.observation, s⟩], ?_⟩
        simp [stepLoop, hn, hp, hl, hi]
  · refine Or.inl ?_
    simp [stepLoop, hn, hp, isTerminal, callCount]
  · by_cases hrec : cfg.allowParsingErrorRecovery
    · refine Or.inr ⟨tr ++ [⟨.observation, recoveryMessage⟩], ?_⟩
      simp [stepLoop, hn, hp, hrec]
    · refine Or.inl ?_
      simp [stepLoop, hn, hp, hrec, isTerminal, callCount]

/-- From any running state within the bound, enough fuel reaches a
terminal state with at most `maxIterations` model calls. -/
theorem loopIter_bound (cfg : LoopConfig) (reg : List Tool) (complete : String → String)
    (question : String) : ∀ (fuel n : Nat) (tr : Transcript),
    n ≤ cfg.maxIterations → cfg.maxIterations < n + fuel →
    isTerminal (loopIter cfg reg complete question fuel (.running n tr)) = true ∧
    callCount (loopIter cfg reg complete question fuel (.running n tr)) ≤ cfg.maxIterations
  | 0, n, tr, hle, hlt => absurd hle (by omega)
  | fuel + 1, n, tr, hle, hlt => by
      have hrun : isTerminal (LoopState.running n tr) = false := rfl
      rw [loopIter, hrun]
      simp only [Bool.false_eq_true, if_false]
      rcases Nat.lt_or_ge n cfg.maxIterations with hn | hn
      · rcases stepLoop_shape cfg reg complete question n tr hn with ⟨hterm, hcalls⟩ | ⟨tr', heq⟩
        · rw [loopIter_terminal cfg reg complete question fuel _ hterm]
          exact ⟨hterm, by omega⟩
        · rw [heq]
          exact loopIter_bound cfg reg complete question fuel (n + 1) tr' (by omega) (by omega)
      · have hstep : stepLoop cfg reg complete question (.running n tr) =
            .failed .iterationLimitExceeded tr n := by
          simp [stepLoop, hn]
        rw [hstep,
          loopIter_terminal cfg reg complete question fuel
            (.failed .iterationLimitExceeded tr n) rfl]
        exact ⟨rfl, hle⟩

/-- Claim C4 (spec-modelled): for every configuration, tool registry,
Completion Client behaviour and question, one agent run reaches a
terminal state (`Done` or `Failed`) after at most `maxIterations`
Completion Client calls. -/
theorem agent_run_bounded (cfg : LoopConfig) (reg : List Tool) (complete : String → String)
    (question : String) :
    isTerminal (run cfg reg complete question) = true ∧
    callCount (run cfg reg complete question) ≤ cfg.maxIterations :=
  loopIter_bound cfg reg complete question (cfg.maxIterations + 1) 0 [] (by omega) (by omega)

/-- The keyword arguments of the `AgentExecutor(...)` construction
(examples/04_agent_with_tools.py, lines 172-178). -/
structure AgentExecutorArgs where
  verbose : Bool
  handleParsingErrors : Bool
  maxIterations : Nat
deriving DecidableEq, Repr

/-- `agent_executor` as constructed on lines 172-178: `verbose=True,
handle_parsing_errors=True, max_iterations=5`. -/
def agent_executor : AgentExecutorArgs :=
  { verbose := true, handleParsingErrors := true, maxIterations := 5 }

/-- The loop configuration the executor arguments denote:
`max_iterations` is the spec's `max_iterations`, `handle_parsing_errors`
is the spec's `allow_parsing_error_recovery`. -/
def configOf (a : AgentExecutorArgs) : LoopConfig :=
  { maxIterations := a.maxIterations, allowParsingErrorRecovery := a.handleParsingErrors }

/-- Claim C5: the agent loop is configured with an iteration limit of
exactly 5 and with parsing-error recovery enabled; under this
configuration a malformed continuation below the limit is fed back as a
recovery Observation and the loop keeps running instead of aborting. -/
theorem agent_executor_configuration :
    agent_executor.maxIterations = 5 ∧ agent_executor.handleParsingErrors = true ∧
    ∀ (reg : List Tool) (complete : String → String) (question : String)
      (n : Nat) (tr : Transcript) (raw : String),
      n < agent_executor.maxIterations →
      parse (complete (render reg question tr)) = Decision.malformed raw →
      stepLoop (configOf agent_executor) reg complete question (.running n tr) =
        .running (n + 1) (tr ++ [⟨.observation, recoveryMessage⟩]) := by
  refine ⟨rfl, rfl, ?_⟩
  intro reg complete question n tr raw hn hp
  have hle : ¬ (configOf agent_executor).maxIterations ≤ n := Nat.not_le.mpr hn
  have h5 : n < 5 := hn
  simp [stepLoop, hle, hp, configOf, agent_executor, h5]

/-- Witness for C5: with the constructed configuration, an unparsable
continuation at iteration 0 leaves the loop running at iteration 1 with
the recovery Observation appended. -/
theorem agent_executor_configuration_witness :
    stepLoop (configOf agent_executor) [] (fun _ => "garbage") "q" (.running 0 []) =
      .running 1 [⟨.observation, recoveryMessage⟩] := by
  have h := agent_executor_configuration
  simpa using h.2.2 [] (fun _ => "garbage") "q" 0 [] "garbage" (by omega) rfl
